import Mathlib

/-!
Shallow embedding of the scheduled-post publishing pipeline of the
threads-scheduler repository: the queue data model, the dispatcher loop of
`src/app/api/scheduler/route.ts` (POST handler), and the Threads API client of
`src/lib/threads-api.ts`.  Timestamps are modelled as natural numbers
(milliseconds, as produced by `Date.now()`); database tables are lists of rows;
the external Threads network is an oracle passed in as a structure of
functions.
-/

namespace ThreadsScheduler

/-- Status values of a `post_queue` row (`pending`, `processing`, `completed`,
`failed`). -/
inductive QueueStatus where
  | pending
  | processing
  | completed
  | failed
deriving DecidableEq, Repr

/-- Status values of a `posts` row (`draft`, `scheduled`, `published`,
`failed`). -/
inductive PostStatus where
  | draft
  | scheduled
  | published
  | failed
deriving DecidableEq, Repr

/-- A row of the `posts` table, restricted to the columns the dispatcher
reads or writes.  `media_type` is a free-form string column in the database,
so it is a `String` here; a missing/null `media_urls` array is modelled as the
empty list (the source guards with `!post.media_urls?.length`, which treats
null and empty alike). -/
structure Post where
  id : Nat
  user_id : Nat
  status : PostStatus
  content : String
  media_type : String
  media_urls : List String
  is_carousel : Bool
  carousel_items : List String
  link_attachment_url : Option String
  threads_post_id : Option String
  published_at : Option Nat
  error_message : Option String
  updated_at : Nat
deriving DecidableEq, Repr

/-- A row of the `post_queue` table, restricted to the columns the dispatcher
reads or writes.  `retry_count` is nullable in the source (the code reads
`item.retry_count || 0`), hence `Option Nat`. -/
structure QueueEntry where
  id : Nat
  post_id : Nat
  user_id : Nat
  status : QueueStatus
  scheduled_for : Nat
  retry_count : Option Nat
  error_message : Option String
  completed_at : Option Nat
  updated_at : Nat
deriving DecidableEq, Repr

/-- A row of the `users` table, restricted to the single column the dispatcher
joins in: `threads_access_token` (nullable). -/
structure UserRow where
  id : Nat
  threads_access_token : Option String
deriving DecidableEq, Repr

/-- A row of the `analytics` table as inserted by the dispatcher on a
successful publish. -/
structure AnalyticsRecord where
  post_id : Nat
  user_id : Nat
  threads_post_id : String
  likes : Nat
  replies : Nat
  reposts : Nat
  views : Nat
  engagement_rate : Nat
  reach : Nat
  impressions : Nat
deriving DecidableEq, Repr

/-- The database state visible to the dispatcher: the `post_queue`, `posts`,
`users` and `analytics` tables. -/
structure DB where
  queue : List QueueEntry
  posts : List Post
  users : List UserRow
  analytics : List AnalyticsRecord
deriving DecidableEq, Repr

/-- `UPDATE post_queue SET ... WHERE id = qid`: apply `f` to every queue row
whose `id` matches. -/
def DB.updateQueue (db : DB) (qid : Nat) (f : QueueEntry → QueueEntry) : DB :=
  { db with queue := db.queue.map (fun e => if e.id == qid then f e else e) }

/-- `UPDATE posts SET ... WHERE id = pid`: apply `f` to every post row whose
`id` matches. -/
def DB.updatePost (db : DB) (pid : Nat) (f : Post → Post) : DB :=
  { db with posts := db.posts.map (fun p => if p.id == pid then f p else p) }

/-- `INSERT INTO analytics ...`. -/
def DB.insertAnalytics (db : DB) (a : AnalyticsRecord) : DB :=
  { db with analytics := db.analytics ++ [a] }

/-- Look up the (first) queue row with the given id. -/
def DB.findQueue (db : DB) (qid : Nat) : Option QueueEntry :=
  db.queue.find? (fun e => e.id == qid)

/-- Look up the (first) post row with the given id. -/
def DB.findPost (db : DB) (pid : Nat) : Option Post :=
  db.posts.find? (fun p => p.id == pid)

/-- One element of the dispatcher's due-item query result: a `post_queue` row
together with its joined `posts` row (null if the post was deleted) and the
joined `users` row (carrying `threads_access_token`). -/
structure FetchedItem where
  entry : QueueEntry
  posts : Option Post
  users : Option UserRow
deriving DecidableEq, Repr

/-- The WHERE clause of the dispatcher's due-item query:
`.eq('status', 'pending').lte('scheduled_for', now)`. -/
def duePred (now : Nat) (e : QueueEntry) : Bool :=
  e.status == QueueStatus.pending && decide (e.scheduled_for ≤ now)

/-- The relation used by `.order('scheduled_for', { ascending: true })`. -/
def schedLE (a b : QueueEntry) : Prop :=
  a.scheduled_for ≤ b.scheduled_for

instance : DecidableRel schedLE := fun a b => Nat.decLe a.scheduled_for b.scheduled_for

instance : IsTotal QueueEntry schedLE :=
  ⟨fun a b => Nat.le_total a.scheduled_for b.scheduled_for⟩

instance : IsTrans QueueEntry schedLE :=
  ⟨fun _ _ _ h h2 => Nat.le_trans h h2⟩

/-- The queue rows selected by the dispatcher's due-item query: status
`pending`, `scheduled_for ≤ now`, ordered ascending by `scheduled_for`,
`.limit(10)`. -/
def dueEntries (now : Nat) (db : DB) : List QueueEntry :=
  ((db.queue.filter (duePred now)).insertionSort schedLE).take 10

/-- The `posts (*), users (threads_access_token)` join of the due-item
query. -/
def joinItem (db : DB) (e : QueueEntry) : FetchedItem :=
  { entry := e,
    posts := db.posts.find? (fun p => p.id == e.post_id),
    users := db.users.find? (fun u => u.id == e.user_id) }

/-- The full due-item fetch of the dispatcher (scheduler route, POST handler):
pending rows due at `now`, ascending by `scheduled_for`, at most 10, each
joined with its post and its owning user. -/
def fetchDue (now : Nat) (db : DB) : List FetchedItem :=
  (dueEntries now db).map (joinItem db)

/-- The body of a successful Threads API media response (`ThreadsMediaResponse`
in `src/types/threads.ts`): the id of the created container, respectively of
the published post. -/
structure ThreadsMediaResponse where
  id : String
deriving DecidableEq, Repr

/-- The payload assembled by the creation methods of `ThreadsAPIClient`
(`src/lib/threads-api.ts`): `media_type` plus the optional fields each method
sets when present. -/
structure CreateMediaPayload where
  media_type : String
  text : Option String := none
  image_url : Option String := none
  video_url : Option String := none
  alt_text : Option String := none
  is_carousel_item : Bool := false
  children : List String := []
  link_attachment : Option String := none
  reply_to_id : Option String := none
  reply_control : Option String := none
deriving DecidableEq, Repr

/-- The external Threads Graph API, as an oracle: `getMe` resolves the user id
(`GET /me?fields=id`), `createMedia` is `POST /{userId}/threads` creating a
container, `publishMedia` is `POST /{userId}/threads_publish`.  Each call
either returns a response body or fails with a `ThreadsAPIError` message (the
client turns both structured API errors and network errors into a thrown
error; errors are modelled by their message string). -/
structure ThreadsNet where
  getMe : Except String String
  createMedia : String → CreateMediaPayload → Except String ThreadsMediaResponse
  publishMedia : String → String → Except String ThreadsMediaResponse

/-- `ThreadsAPIClient.createTextMedia`: resolve the user id, then create a TEXT
container with the text and the optional fields of the request. -/
def createTextMedia (net : ThreadsNet) (text : String)
    (link_attachment reply_to_id reply_control : Option String) :
    Except String ThreadsMediaResponse := do
  let uid ← net.getMe
  net.createMedia uid
    { media_type := "TEXT", text := some text, link_attachment := link_attachment,
      reply_to_id := reply_to_id, reply_control := reply_control }

/-- `ThreadsAPIClient.createImageMedia`: resolve the user id, then create an
IMAGE container with the image url and the optional fields of the request. -/
def createImageMedia (net : ThreadsNet) (image_url : String)
    (text alt_text : Option String) (is_carousel_item : Bool)
    (reply_to_id reply_control : Option String) :
    Except String ThreadsMediaResponse := do
  let uid ← net.getMe
  net.createMedia uid
    { media_type := "IMAGE", image_url := some image_url, text := text,
      alt_text := alt_text, is_carousel_item := is_carousel_item,
      reply_to_id := reply_to_id, reply_control := reply_control }

/-- `ThreadsAPIClient.createVideoMedia`: resolve the user id, then create a
VIDEO container with the video url and the optional fields of the request. -/
def createVideoMedia (net : ThreadsNet) (video_url : String)
    (text reply_to_id reply_control : Option String) :
    Except String ThreadsMediaResponse := do
  let uid ← net.getMe
  net.createMedia uid
    { media_type := "VIDEO", video_url := some video_url, text := text,
      reply_to_id := reply_to_id, reply_control := reply_control }

/-- `ThreadsAPIClient.createCarouselMedia`: resolve the user id, then create a
CAROUSEL container referencing the pre-created child container ids. -/
def createCarouselMedia (net : ThreadsNet) (children : List String)
    (text link_attachment reply_to_id reply_control : Option String) :
    Except String ThreadsMediaResponse := do
  let uid ← net.getMe
  net.createMedia uid
    { media_type := "CAROUSEL", children := children, text := text,
      link_attachment := link_attachment, reply_to_id := reply_to_id,
      reply_control := reply_control }

/-- `ThreadsAPIClient.publishMedia`: resolve the user id, then publish the
container named by `creationId` (`POST /{userId}/threads_publish` with
`creation_id`). -/
def publishMedia (net : ThreadsNet) (creationId : String) :
    Except String ThreadsMediaResponse := do
  let uid ← net.getMe
  net.publishMedia uid creationId

/-- Modelled from the spec: the convenience method `createTextPost(content,
linkAttachment?)` that the dispatcher and the manual publish route call is not
present under `src/` (only its callers and stale tests are).  Per spec section
4.2 the design is create-then-publish: create a text container, then publish
that container; both steps must succeed before an external post id is
returned. -/
def createTextPost (net : ThreadsNet) (content : String)
    (linkAttachment : Option String) : Except String String := do
  let container ← createTextMedia net content linkAttachment none none
  let res ← publishMedia net container.id
  pure res.id

/-- Modelled from the spec: the convenience method `createImagePost(content,
imageUrl)` is not present under `src/`.  Per spec section 4.2: create an image
container with the media url attached to the creation call, then publish it;
both steps must succeed before an external post id is returned. -/
def createImagePost (net : ThreadsNet) (content : String) (imageUrl : String) :
    Except String String := do
  let container ← createImageMedia net imageUrl (some content) none false none none
  let res ← publishMedia net container.id
  pure res.id

/-- Modelled from the spec: the convenience method `createVideoPost(content,
videoUrl)` is not present under `src/`.  Per spec section 4.2: create a video
container with the media url attached to the creation call, then publish it;
both steps must succeed before an external post id is returned. -/
def createVideoPost (net : ThreadsNet) (content : String) (videoUrl : String) :
    Except String String := do
  let container ← createVideoMedia net videoUrl (some content) none none
  let res ← publishMedia net container.id
  pure res.id

/-- Modelled from the spec: the convenience method `createCarouselPost(content,
items)` is not present under `src/`.  Per spec section 4.2: create a parent
carousel container referencing the child container ids, then publish it; both
steps must succeed before an external post id is returned. -/
def createCarouselPost (net : ThreadsNet) (content : String)
    (items : List String) : Except String String := do
  let container ← createCarouselMedia net items (some content) none none none
  let res ← publishMedia net container.id
  pure res.id

/-- The interface of the Threads Publisher Client as the dispatcher consumes
it: one method per media kind, each returning an external post id or failing
with an error message. -/
structure Publisher where
  createTextPost : String → Option String → Except String String
  createImagePost : String → String → Except String String
  createVideoPost : String → String → Except String String
  createCarouselPost : String → List String → Except String String

/-- The Publisher backed by the Threads network oracle through the modelled
create-then-publish convenience methods. -/
def netPublisher (net : ThreadsNet) : Publisher :=
  { createTextPost := fun c l => createTextPost net c l,
    createImagePost := fun c u => createImagePost net c u,
    createVideoPost := fun c u => createVideoPost net c u,
    createCarouselPost := fun c items => createCarouselPost net c items }

/-- The per-entry status reported in the dispatcher's result list:
`'completed'`, `'failed'`, or `'retrying'`. -/
inductive ResStatus where
  | completed
  | failed
  | retrying
deriving DecidableEq, Repr

/-- One element of the dispatcher's `results` array. -/
structure ResultRow where
  queue_id : Nat
  post_id : Nat
  threads_post_id : Option String
  status : ResStatus
  error : Option String
  retry_count : Option Nat
deriving DecidableEq, Repr

/-- The dispatcher's mark-processing step (scheduler route, POST handler,
lines 122 to 129): `UPDATE post_queue SET status = 'processing', updated_at =
now WHERE id = qid`.  Note the update is keyed on the row id only; it carries
no condition on the current status. -/
def markProcessing (now : Nat) (qid : Nat) (db : DB) : DB :=
  db.updateQueue qid (fun e =>
    { e with status := QueueStatus.processing, updated_at := now })

/-- The publish attempt of the dispatcher for the joined post of a due item
(scheduler route, lines 154 to 179): branch on `media_type`, `media_urls`,
`is_carousel`, `carousel_items`, calling one Publisher Client method; an
unmatched media type throws `Unsupported media type`.  A null joined post
(post deleted between fetch and processing) throws a TypeError when
`post.media_type` is read; it is modelled by its error message. -/
def publishPost (pub : Publisher) (post? : Option Post) : Except String String :=
  match post? with
  | none => Except.error "Cannot read properties of null"
  | some post =>
    if post.media_type == "text" || post.media_urls.isEmpty then
      pub.createTextPost post.content post.link_attachment_url
    else if post.is_carousel && !post.carousel_items.isEmpty then
      pub.createCarouselPost post.content post.carousel_items
    else if post.media_type == "image" then
      pub.createImagePost post.content (post.media_urls.headD "")
    else if post.media_type == "video" then
      pub.createVideoPost post.content (post.media_urls.headD "")
    else
      Except.error "Unsupported media type"

/-- The queue-row values written by the dispatcher's catch block (scheduler
route, lines 229 to 243) given the fetched snapshot `e` of the row:
`newRetryCount = (retry_count || 0) + 1`, `shouldRetry = newRetryCount < 3`;
status back to `pending` with `scheduled_for = now + 30 minutes` when
retrying, else status `failed` with `scheduled_for` kept at the snapshot
value; the error message and `updated_at` are recorded in both cases. -/
def failStep (now : Nat) (msg : String) (e : QueueEntry) : QueueEntry :=
  let newRetryCount := e.retry_count.getD 0 + 1
  let shouldRetry := newRetryCount < 3
  { e with
    status := if shouldRetry then QueueStatus.pending else QueueStatus.failed,
    retry_count := some newRetryCount,
    error_message := some msg,
    scheduled_for := if shouldRetry then now + 30 * 60 * 1000 else e.scheduled_for,
    updated_at := now }

/-- The dispatcher's catch block (scheduler route, lines 225 to 264): write
the failure bookkeeping of `failStep` (computed from the fetched snapshot
`item.entry`) onto the queue row, set the post to terminal `failed` when the
retry budget is exhausted, and push a `retrying`/`failed` result row. -/
def onFailure (now : Nat) (item : FetchedItem) (msg : String) (db : DB) :
    DB × ResultRow :=
  let fs := failStep now msg item.entry
  let newRetryCount := item.entry.retry_count.getD 0 + 1
  let shouldRetry := newRetryCount < 3
  let db2 := db.updateQueue item.entry.id (fun e =>
    { e with status := fs.status, retry_count := fs.retry_count,
             error_message := fs.error_message, scheduled_for := fs.scheduled_for,
             updated_at := fs.updated_at })
  let db3 :=
    if shouldRetry then db2
    else
      db2.updatePost item.entry.post_id (fun p =>
        { p with status := PostStatus.failed, error_message := some msg,
                 updated_at := now })
  (db3,
   { queue_id := item.entry.id, post_id := item.entry.post_id,
     threads_post_id := none,
     status := if shouldRetry then ResStatus.retrying else ResStatus.failed,
     error := some msg, retry_count := some newRetryCount })

/-- The body of the dispatcher's per-item loop (scheduler route, lines 120 to
264): mark the row processing; terminally fail the row with `No valid access
token` when the joined user has no token (without touching the post and
without calling the Publisher Client); otherwise attempt the publish and
either apply the success updates (post published, queue row completed,
analytics seeded) or the catch block. -/
def processItem (pub : Publisher) (now : Nat) (db : DB) (item : FetchedItem) :
    DB × ResultRow :=
  let db1 := markProcessing now item.entry.id db
  match item.users.bind (fun u => u.threads_access_token) with
  | none =>
    let db2 := db1.updateQueue item.entry.id (fun e =>
      { e with status := QueueStatus.failed,
               error_message := some "No valid access token", updated_at := now })
    (db2,
     { queue_id := item.entry.id, post_id := item.entry.post_id,
       threads_post_id := none, status := ResStatus.failed,
       error := some "No valid access token", retry_count := none })
  | some _token =>
    match item.posts with
    | none => onFailure now item "Cannot read properties of null" db1
    | some post =>
      match publishPost pub (some post) with
      | Except.error msg => onFailure now item msg db1
      | Except.ok threadsPostId =>
        let db2 := db1.updatePost post.id (fun p =>
          { p with status := PostStatus.published,
                   threads_post_id := some threadsPostId,
                   published_at := some now, updated_at := now })
        let db3 := db2.updateQueue item.entry.id (fun e =>
          { e with status := QueueStatus.completed, completed_at := some now,
                   updated_at := now })
        let db4 := db3.insertAnalytics
          { post_id := post.id, user_id := item.entry.user_id,
            threads_post_id := threadsPostId, likes := 0, replies := 0,
            reposts := 0, views := 0, engagement_rate := 0, reach := 0,
            impressions := 0 }
        (db4,
         { queue_id := item.entry.id, post_id := item.entry.post_id,
           threads_post_id := some threadsPostId, status := ResStatus.completed,
           error := none, retry_count := none })

/-- The dispatcher's batch loop: process the fetched items sequentially,
threading the database state and accumulating one result row per item (each
iteration is wrapped in its own try/catch in the source, so an error in one
item is recorded in that item's result and the loop continues). -/
def processDue (pub : Publisher) (now : Nat) (db : DB) :
    List FetchedItem → DB × List ResultRow
  | [] => (db, [])
  | item :: rest =>
    let r := processItem pub now db item
    let rs := processDue pub now r.1 rest
    (rs.1, r.2 :: rs.2)

/-- The whole `action: process` invocation of the scheduler route: fetch the
due items at `now` and process them. -/
def processQueue (pub : Publisher) (now : Nat) (db : DB) : DB × List ResultRow :=
  processDue pub now db (fetchDue now db)

/-! ## Helper lemmas about the database operations -/

theorem find?_map_update_queue (l : List QueueEntry) (qid : Nat)
    (f : QueueEntry → QueueEntry) (hf : ∀ e, (f e).id = e.id) :
    (l.map (fun e => if e.id == qid then f e else e)).find? (fun e => e.id == qid)
      = (l.find? (fun e => e.id == qid)).map f := by
  induction l with
  | nil => rfl
  | cons a t ih =>
    by_cases h : (a.id == qid) = true
    · have hfa : ((f a).id == qid) = true := by rw [hf]; exact h
      simp only [List.map_cons]
      rw [if_pos h, List.find?_cons_of_pos (p := fun e : QueueEntry => e.id == qid) _ hfa,
          List.find?_cons_of_pos (p := fun e : QueueEntry => e.id == qid) _ h]
      rfl
    · simp only [List.map_cons]
      rw [if_neg h, List.find?_cons_of_neg (p := fun e : QueueEntry => e.id == qid) _ h,
          List.find?_cons_of_neg (p := fun e : QueueEntry => e.id == qid) _ h]
      exact ih

theorem find?_map_update_post (l : List Post) (pid : Nat)
    (f : Post → Post) (hf : ∀ p, (f p).id = p.id) :
    (l.map (fun p => if p.id == pid then f p else p)).find? (fun p => p.id == pid)
      = (l.find? (fun p => p.id == pid)).map f := by
  induction l with
  | nil => rfl
  | cons a t ih =>
    by_cases h : (a.id == pid) = true
    · have hfa : ((f a).id == pid) = true := by rw [hf]; exact h
      simp only [List.map_cons]
      rw [if_pos h, List.find?_cons_of_pos (p := fun p : Post => p.id == pid) _ hfa,
          List.find?_cons_of_pos (p := fun p : Post => p.id == pid) _ h]
      rfl
    · simp only [List.map_cons]
      rw [if_neg h, List.find?_cons_of_neg (p := fun p : Post => p.id == pid) _ h,
          List.find?_cons_of_neg (p := fun p : Post => p.id == pid) _ h]
      exact ih

theorem findQueue_updateQueue (db : DB) (qid : Nat) (f : QueueEntry → QueueEntry)
    (hf : ∀ e, (f e).id = e.id) :
    (db.updateQueue qid f).findQueue qid = (db.findQueue qid).map f :=
  find?_map_update_queue db.queue qid f hf

theorem findPost_updatePost (db : DB) (pid : Nat) (f : Post → Post)
    (hf : ∀ p, (f p).id = p.id) :
    (db.updatePost pid f).findPost pid = (db.findPost pid).map f :=
  find?_map_update_post db.posts pid f hf

theorem mem_updateQueue_of_ne (db : DB) (qid : Nat) (f : QueueEntry → QueueEntry)
    (e : QueueEntry) (he : e ∈ db.queue) (hne : e.id ≠ qid) :
    e ∈ (db.updateQueue qid f).queue := by
  have hid : (e.id == qid) = false := by simpa using hne
  have hfix : (fun x => if x.id == qid then f x else x) e = e := by
    simp [hid]
  have hm := List.mem_map_of_mem (fun x => if x.id == qid then f x else x) he
  rw [hfix] at hm
  exact hm

/-! ## C1: the mark-processing transition -/

/-- A queue row that is already in a terminal status. -/
def exEntryC1 : QueueEntry :=
  { id := 1, post_id := 1, user_id := 1, status := QueueStatus.completed,
    scheduled_for := 50, retry_count := some 0, error_message := none,
    completed_at := some 60, updated_at := 60 }

def exDBC1 : DB := { queue := [exEntryC1], posts := [], users := [], analytics := [] }

/-- C1: the claim states that `markProcessing` transitions an entry to
`processing` only if its current status is `pending` and leaves a non-pending
entry unchanged.  The source update (scheduler route, lines 122 to 129) is
keyed on the row id only, with no condition on the current status: applied to
an entry whose status is `completed`, it overwrites the status with
`processing` and does not leave the entry unchanged. -/
theorem markProcessing_overwrites_nonpending :
    (exDBC1.findQueue 1).map QueueEntry.status = some QueueStatus.completed ∧
    ((markProcessing 100 1 exDBC1).findQueue 1).map QueueEntry.status
      = some QueueStatus.processing ∧
    markProcessing 100 1 exDBC1 ≠ exDBC1 := by
  refine ⟨rfl, rfl, ?_⟩
  decide

/-! ## C6: the due-item fetch -/

/-- C6: every fetched item has status `pending` and is due at `now`; the
number of fetched items is the number of due rows capped at the batch limit
10 (so at most 10, and exactly 10 whenever at least 10 rows are due, e.g. 15);
and the fetched items are ordered ascending by `scheduled_for`. -/
theorem fetchDue_only_due_sorted_bounded (now : Nat) (db : DB) :
    (∀ it ∈ fetchDue now db,
        it.entry.status = QueueStatus.pending ∧ it.entry.scheduled_for ≤ now) ∧
    (fetchDue now db).length = min 10 (db.queue.filter (duePred now)).length ∧
    List.Sorted (fun a b : FetchedItem =>
      a.entry.scheduled_for ≤ b.entry.scheduled_for) (fetchDue now db) := by
  refine ⟨?_, ?_, ?_⟩
  · intro it hit
    rcases List.mem_map.mp hit with ⟨e, he, hje⟩
    have he2 : e ∈ (db.queue.filter (duePred now)).insertionSort schedLE :=
      List.mem_of_mem_take he
    have he3 : e ∈ db.queue.filter (duePred now) :=
      (List.mem_insertionSort schedLE).mp he2
    have hdue : duePred now e = true := (List.mem_filter.mp he3).2
    unfold duePred at hdue
    rw [Bool.and_eq_true] at hdue
    subst hje
    exact ⟨beq_iff_eq.mp hdue.1, of_decide_eq_true hdue.2⟩
  · unfold fetchDue dueEntries
    rw [List.length_map, List.length_take, List.length_insertionSort]
  · have hs : List.Sorted schedLE
        ((db.queue.filter (duePred now)).insertionSort schedLE) :=
      List.sorted_insertionSort schedLE _
    have ht : List.Pairwise schedLE
        (((db.queue.filter (duePred now)).insertionSort schedLE).take 10) :=
      List.Pairwise.sublist (List.take_sublist 10 _) hs
    exact List.pairwise_map.mpr (ht.imp (fun h => h))

/-! ## Frame lemmas: each table update leaves the other tables untouched -/

theorem findPost_updateQueue (db : DB) (qid : Nat) (f : QueueEntry → QueueEntry)
    (pid : Nat) : (db.updateQueue qid f).findPost pid = db.findPost pid := rfl

theorem findQueue_updatePost (db : DB) (pid : Nat) (f : Post → Post)
    (qid : Nat) : (db.updatePost pid f).findQueue qid = db.findQueue qid := rfl

theorem findQueue_insertAnalytics (db : DB) (a : AnalyticsRecord) (qid : Nat) :
    (db.insertAnalytics a).findQueue qid = db.findQueue qid := rfl

theorem findPost_insertAnalytics (db : DB) (a : AnalyticsRecord) (pid : Nat) :
    (db.insertAnalytics a).findPost pid = db.findPost pid := rfl

theorem posts_updateQueue (db : DB) (qid : Nat) (f : QueueEntry → QueueEntry) :
    (db.updateQueue qid f).posts = db.posts := rfl

theorem analytics_updateQueue (db : DB) (qid : Nat) (f : QueueEntry → QueueEntry) :
    (db.updateQueue qid f).analytics = db.analytics := rfl

theorem analytics_updatePost (db : DB) (pid : Nat) (f : Post → Post) :
    (db.updatePost pid f).analytics = db.analytics := rfl

theorem users_updateQueue (db : DB) (qid : Nat) (f : QueueEntry → QueueEntry) :
    (db.updateQueue qid f).users = db.users := rfl

theorem findQueue_markProcessing (now qid : Nat) (db : DB) (e : QueueEntry)
    (hq : db.findQueue qid = some e) :
    (markProcessing now qid db).findQueue qid
      = some { e with status := QueueStatus.processing, updated_at := now } := by
  unfold markProcessing
  rw [findQueue_updateQueue db qid
      (fun x => { x with status := QueueStatus.processing, updated_at := now })
      (fun x => rfl), hq]
  rfl

/-! ## C3: failure bookkeeping of the dispatcher catch block -/

/-- C3: on a failed publish attempt the dispatcher increments the retry count
by one; while the new count is below 3 the row goes back to `pending` with
`scheduled_for = now + 30 minutes` and the error message recorded; at 3 and
above both the queue row and the post become terminal `failed` with the error
message recorded. -/
theorem failure_retry_bookkeeping (pub : Publisher) (now : Nat) (db : DB)
    (item : FetchedItem) (t : String) (post : Post) (msg : String)
    (e : QueueEntry) (p : Post)
    (htok : item.users.bind (fun u => u.threads_access_token) = some t)
    (hpost : item.posts = some post)
    (hfail : publishPost pub (some post) = Except.error msg)
    (hq : db.findQueue item.entry.id = some e)
    (hp : db.findPost item.entry.post_id = some p) :
    (processItem pub now db item).2.retry_count
        = some (item.entry.retry_count.getD 0 + 1) ∧
    (processItem pub now db item).2.error = some msg ∧
    (item.entry.retry_count.getD 0 + 1 < 3 →
      (processItem pub now db item).1.findQueue item.entry.id = some
        { e with status := QueueStatus.pending,
                 retry_count := some (item.entry.retry_count.getD 0 + 1),
                 error_message := some msg,
                 scheduled_for := now + 30 * 60 * 1000,
                 updated_at := now } ∧
      (processItem pub now db item).1.posts = db.posts ∧
      (processItem pub now db item).2.status = ResStatus.retrying) ∧
    (3 ≤ item.entry.retry_count.getD 0 + 1 →
      (processItem pub now db item).1.findQueue item.entry.id = some
        { e with status := QueueStatus.failed,
                 retry_count := some (item.entry.retry_count.getD 0 + 1),
                 error_message := some msg,
                 scheduled_for := item.entry.scheduled_for,
                 updated_at := now } ∧
      (processItem pub now db item).1.findPost item.entry.post_id = some
        { p with status := PostStatus.failed, error_message := some msg,
                 updated_at := now } ∧
      (processItem pub now db item).2.status = ResStatus.failed) := by
  have hpi : processItem pub now db item
      = onFailure now item msg (markProcessing now item.entry.id db) := by
    simp only [processItem, htok, hpost, hfail]
  have hq1 := findQueue_markProcessing now item.entry.id db e hq
  rw [hpi]
  unfold onFailure failStep
  by_cases h3 : item.entry.retry_count.getD 0 + 1 < 3
  · refine ⟨rfl, rfl, fun _ => ⟨?_, ?_, ?_⟩, fun hge => absurd h3 (by omega)⟩
    · simp only [h3, if_true]
      rw [findQueue_updateQueue (markProcessing now item.entry.id db) item.entry.id
          (fun x => { x with status := QueueStatus.pending,
                             scheduled_for := now + 30 * 60 * 1000,
                             retry_count := some (item.entry.retry_count.getD 0 + 1),
                             error_message := some msg, updated_at := now })
          (fun x => rfl), hq1]
      rfl
    · simp only [h3, if_true]
      rfl
    · simp only [h3, if_true]
  · refine ⟨rfl, rfl, fun hlt => absurd hlt h3, fun _ => ⟨?_, ?_, ?_⟩⟩
    · simp only [h3, if_false]
      rw [findQueue_updatePost, findQueue_updateQueue (markProcessing now item.entry.id db)
          item.entry.id
          (fun x => { x with status := QueueStatus.failed,
                             scheduled_for := item.entry.scheduled_for,
                             retry_count := some (item.entry.retry_count.getD 0 + 1),
                             error_message := some msg, updated_at := now })
          (fun x => rfl), hq1]
      rfl
    · simp only [h3, if_false]
      rw [findPost_updatePost _ item.entry.post_id
          (fun x => { x with status := PostStatus.failed,
                             error_message := some msg, updated_at := now })
          (fun x => rfl), findPost_updateQueue]
      have hpm : (markProcessing now item.entry.id db).findPost item.entry.post_id
          = some p := hp
      rw [hpm]
      rfl
    · simp only [h3, if_false]

/-! ## Concrete fixtures shared by the witnesses -/

def exUser1 : UserRow := { id := 1, threads_access_token := some "tok" }

def exPost1 : Post :=
  { id := 5, user_id := 1, status := PostStatus.scheduled, content := "Hello",
    media_type := "text", media_urls := [], is_carousel := false,
    carousel_items := [], link_attachment_url := none, threads_post_id := none,
    published_at := none, error_message := none, updated_at := 0 }

def exEntry1 : QueueEntry :=
  { id := 3, post_id := 5, user_id := 1, status := QueueStatus.pending,
    scheduled_for := 40, retry_count := some 0, error_message := none,
    completed_at := none, updated_at := 0 }

def exDB1 : DB :=
  { queue := [exEntry1], posts := [exPost1], users := [exUser1], analytics := [] }

def exItem1 : FetchedItem :=
  { entry := exEntry1, posts := some exPost1, users := some exUser1 }

/-- A Publisher Client whose every call succeeds with the external id
`ext123`. -/
def pubOk : Publisher :=
  { createTextPost := fun _ _ => Except.ok "ext123",
    createImagePost := fun _ _ => Except.ok "ext123",
    createVideoPost := fun _ _ => Except.ok "ext123",
    createCarouselPost := fun _ _ => Except.ok "ext123" }

/-- A Publisher Client whose every call fails with a transient error. -/
def pubFail : Publisher :=
  { createTextPost := fun _ _ => Except.error "network down",
    createImagePost := fun _ _ => Except.error "network down",
    createVideoPost := fun _ _ => Except.error "network down",
    createCarouselPost := fun _ _ => Except.error "network down" }

/-- Witness for C3: a first failure at time 100 on a pending entry with
`retry_count = 0` re-enqueues it as pending, due again at 100 plus 30
minutes, with the retry count incremented to 1. -/
theorem failure_retry_bookkeeping_witness :
    (processItem pubFail 100 exDB1 exItem1).2.retry_count = some 1 ∧
    ((processItem pubFail 100 exDB1 exItem1).1.findQueue exItem1.entry.id).map
        QueueEntry.status = some QueueStatus.pending ∧
    ((processItem pubFail 100 exDB1 exItem1).1.findQueue exItem1.entry.id).map
        QueueEntry.scheduled_for = some (100 + 30 * 60 * 1000) := by
  have h := failure_retry_bookkeeping pubFail 100 exDB1 exItem1 "tok" exPost1
    "network down" exEntry1 exPost1 rfl rfl rfl rfl rfl
  have h2 := (h.2.2.1 (by decide)).1
  refine ⟨h.1, ?_, ?_⟩
  · rw [h2]
    rfl
  · rw [h2]
    rfl

/-! ## C4: how many failures until the terminal transition -/

/-- A sequence of publish failures applied to one queue row: each element of
the list is the wall-clock time and the error message of one failed attempt,
applied through the dispatcher's catch-block bookkeeping `failStep`. -/
def failSeq : List (Nat × String) → QueueEntry → QueueEntry
  | [], e => e
  | (now, msg) :: rest, e => failSeq rest (failStep now msg e)

theorem failSeq_status_count (L : List (Nat × String)) :
    ∀ e0 : QueueEntry,
      (failSeq L e0).retry_count.getD 0 = e0.retry_count.getD 0 + L.length ∧
      (L ≠ [] → (failSeq L e0).status =
        (if e0.retry_count.getD 0 + L.length < 3 then QueueStatus.pending
         else QueueStatus.failed)) := by
  induction L with
  | nil =>
    intro e0
    exact ⟨by simp [failSeq], fun h => absurd rfl h⟩
  | cons a rest ih =>
    intro e0
    obtain ⟨now1, msg1⟩ := a
    have hstep_count : (failStep now1 msg1 e0).retry_count.getD 0
        = e0.retry_count.getD 0 + 1 := rfl
    rcases ih (failStep now1 msg1 e0) with ⟨ihc, ihs⟩
    constructor
    · show (failSeq rest (failStep now1 msg1 e0)).retry_count.getD 0 = _
      rw [ihc, hstep_count, List.length_cons]
      omega
    · intro _
      cases rest with
      | nil =>
        show (failStep now1 msg1 e0).status = _
        have hstep_status : (failStep now1 msg1 e0).status =
            (if e0.retry_count.getD 0 + 1 < 3 then QueueStatus.pending
             else QueueStatus.failed) := rfl
        rw [hstep_status]
        exact if_congr (by simp) rfl rfl
      | cons b rest2 =>
        have hne2 : (b :: rest2 : List (Nat × String)) ≠ [] := List.cons_ne_nil _ _
        have h2 := ihs hne2
        show (failSeq (b :: rest2) (failStep now1 msg1 e0)).status = _
        rw [h2, hstep_count]
        exact if_congr (by simp only [List.length_cons]; omega) rfl rfl

def exEntryC4 : QueueEntry :=
  { id := 2, post_id := 2, user_id := 1, status := QueueStatus.pending,
    scheduled_for := 10, retry_count := some 0, error_message := none,
    completed_at := none, updated_at := 0 }

/-- C4 counterexample: the claim predicts that three failures still leave the
entry re-enqueued (so that a fourth attempt occurs and is the terminal one).
On the code the check is `newRetryCount < 3` after incrementing, so the third
failure itself is terminal: starting from `retry_count = 0`, the first two
failures re-enqueue as `pending`, and the third failure sets status `failed`
with `retry_count = 3` — there is no fourth attempt. -/
theorem third_failure_is_terminal :
    (failStep 200 "err" (failStep 100 "err" exEntryC4)).status
      = QueueStatus.pending ∧
    (failStep 300 "err" (failStep 200 "err" (failStep 100 "err" exEntryC4))).retry_count
      = some 3 ∧
    (failStep 300 "err" (failStep 200 "err" (failStep 100 "err" exEntryC4))).status
      = QueueStatus.failed := by
  refine ⟨rfl, rfl, rfl⟩

/-- C4 amended: starting from `retry_count = 0`, a prefix of failures leaves
the entry `pending` exactly while its length is below 3, so at most 2
failures re-enqueue the entry; the retry count equals the number of failures;
the third failure (and any longer sequence) yields terminal `failed`; and a
`failed` entry is never selected by the due-item fetch again, so no retry is
scheduled after the terminal transition. -/
theorem bounded_retries_amended (L : List (Nat × String)) (e0 : QueueEntry)
    (h0 : e0.retry_count.getD 0 = 0) :
    ((failSeq L e0).retry_count.getD 0 = L.length) ∧
    (∀ L1 L2, L = L1 ++ L2 → L1 ≠ [] →
      ((failSeq L1 e0).status = QueueStatus.pending ↔ L1.length < 3)) ∧
    (3 ≤ L.length → L ≠ [] → (failSeq L e0).status = QueueStatus.failed) ∧
    (∀ now2 db e, e.status = QueueStatus.failed → e ∉ dueEntries now2 db) := by
  refine ⟨?_, ?_, ?_, ?_⟩
  · rw [(failSeq_status_count L e0).1, h0, Nat.zero_add]
  · intro L1 L2 _ hne
    rw [(failSeq_status_count L1 e0).2 hne, h0, Nat.zero_add]
    by_cases h : L1.length < 3
    · simp [h]
    · simp [h]
  · intro hge hne
    rw [(failSeq_status_count L e0).2 hne, h0, Nat.zero_add, if_neg (by omega)]
  · intro now2 db e hfailed hmem
    have h1 : e ∈ db.queue.filter (duePred now2) :=
      (List.mem_insertionSort schedLE).mp (List.mem_of_mem_take hmem)
    have h2 : duePred now2 e = true := (List.mem_filter.mp h1).2
    unfold duePred at h2
    rw [Bool.and_eq_true] at h2
    have h3 : e.status = QueueStatus.pending := beq_iff_eq.mp h2.1
    rw [hfailed] at h3
    exact QueueStatus.noConfusion h3

/-- Witness for C4: with three concrete failures, the retry count ends at 3,
a two-failure prefix still has the entry pending, and the third failure is
terminal. -/
theorem bounded_retries_amended_witness :
    (failSeq [(100, "e1"), (200, "e2"), (300, "e3")] exEntryC4).retry_count.getD 0 = 3 ∧
    ((failSeq [(100, "e1"), (200, "e2")] exEntryC4).status = QueueStatus.pending
      ↔ ([(100, "e1"), (200, "e2")] : List (Nat × String)).length < 3) ∧
    (failSeq [(100, "e1"), (200, "e2"), (300, "e3")] exEntryC4).status
      = QueueStatus.failed := by
  have h := bounded_retries_amended [(100, "e1"), (200, "e2"), (300, "e3")]
    exEntryC4 rfl
  exact ⟨h.1,
    h.2.1 [(100, "e1"), (200, "e2")] [(300, "e3")] rfl (by decide),
    h.2.2.1 (by decide) (by decide)⟩

/-! ## C5: the success path of the dispatcher -/

theorem findPost_markProcessing (now qid : Nat) (db : DB) (pid : Nat) :
    (markProcessing now qid db).findPost pid = db.findPost pid := rfl

/-- C5 counterexample: the claim states that on success the dispatcher removes
the QueueEntry, so that no QueueEntry remains once the Post is `published`.
On the code (scheduler route, lines 192 to 200) the queue row is updated to
status `completed` and retained: after a successful publish the post is
`published` and the queue row still exists. -/
theorem queue_entry_not_removed_on_success :
    ((processItem pubOk 100 exDB1 exItem1).1.findPost 5).map Post.status
      = some PostStatus.published ∧
    (processItem pubOk 100 exDB1 exItem1).1.findQueue 3 ≠ none ∧
    ((processItem pubOk 100 exDB1 exItem1).1.findQueue 3).map QueueEntry.status
      = some QueueStatus.completed := by
  refine ⟨rfl, by decide, rfl⟩

/-- C5 amended: on a successful publish attempt the dispatcher sets the Post
to `published` with `external_post_id` (`threads_post_id`) and `published_at`
both set, updates the QueueEntry to status `completed` with `completed_at`
set (the row is retained, not removed), and seeds an AnalyticsRecord with all
counters zero. -/
theorem success_updates (pub : Publisher) (now : Nat) (db : DB)
    (item : FetchedItem) (t : String) (post : Post) (extId : String)
    (e : QueueEntry) (p : Post)
    (htok : item.users.bind (fun u => u.threads_access_token) = some t)
    (hpost : item.posts = some post)
    (hok : publishPost pub (some post) = Except.ok extId)
    (hq : db.findQueue item.entry.id = some e)
    (hp : db.findPost post.id = some p) :
    (processItem pub now db item).1.findPost post.id = some
      { p with status := PostStatus.published, threads_post_id := some extId,
               published_at := some now, updated_at := now } ∧
    (processItem pub now db item).1.findQueue item.entry.id = some
      { e with status := QueueStatus.completed, completed_at := some now,
               updated_at := now } ∧
    (processItem pub now db item).1.analytics = db.analytics ++
      [{ post_id := post.id, user_id := item.entry.user_id,
         threads_post_id := extId, likes := 0, replies := 0, reposts := 0,
         views := 0, engagement_rate := 0, reach := 0, impressions := 0 }] ∧
    (processItem pub now db item).2 =
      { queue_id := item.entry.id, post_id := item.entry.post_id,
        threads_post_id := some extId, status := ResStatus.completed,
        error := none, retry_count := none } := by
  have hpi : processItem pub now db item =
      (((((markProcessing now item.entry.id db).updatePost post.id
          (fun x => { x with status := PostStatus.published,
                             threads_post_id := some extId,
                             published_at := some now, updated_at := now })).updateQueue
          item.entry.id
          (fun x => { x with status := QueueStatus.completed,
                             completed_at := some now, updated_at := now })).insertAnalytics
          { post_id := post.id, user_id := item.entry.user_id,
            threads_post_id := extId, likes := 0, replies := 0, reposts := 0,
            views := 0, engagement_rate := 0, reach := 0, impressions := 0 }),
       { queue_id := item.entry.id, post_id := item.entry.post_id,
         threads_post_id := some extId, status := ResStatus.completed,
         error := none, retry_count := none }) := by
    simp only [processItem, htok, hpost, hok]
  rw [hpi]
  refine ⟨?_, ?_, rfl, rfl⟩
  · rw [findPost_insertAnalytics, findPost_updateQueue,
        findPost_updatePost _ post.id
          (fun x => { x with status := PostStatus.published,
                             threads_post_id := some extId,
                             published_at := some now, updated_at := now })
          (fun x => rfl),
        findPost_markProcessing, hp]
    rfl
  · rw [findQueue_insertAnalytics,
        findQueue_updateQueue _ item.entry.id
          (fun x => { x with status := QueueStatus.completed,
                             completed_at := some now, updated_at := now })
          (fun x => rfl),
        findQueue_updatePost, findQueue_markProcessing now item.entry.id db e hq]
    rfl

/-- Witness for C5 (amended): on the concrete one-entry database with a
successful publisher the post becomes `published` with external id `ext123`,
the queue row becomes `completed`, and a zeroed analytics record is
inserted. -/
theorem success_updates_witness :
    (processItem pubOk 100 exDB1 exItem1).1.findPost 5 = some
      { exPost1 with status := PostStatus.published,
                     threads_post_id := some "ext123",
                     published_at := some 100, updated_at := 100 } ∧
    (processItem pubOk 100 exDB1 exItem1).1.findQueue exItem1.entry.id = some
      { exEntry1 with status := QueueStatus.completed, completed_at := some 100,
                      updated_at := 100 } ∧
    (processItem pubOk 100 exDB1 exItem1).1.analytics =
      [{ post_id := 5, user_id := 1, threads_post_id := "ext123", likes := 0,
         replies := 0, reposts := 0, views := 0, engagement_rate := 0,
         reach := 0, impressions := 0 }] := by
  have h := success_updates pubOk 100 exDB1 exItem1 "tok" exPost1 "ext123"
    exEntry1 exPost1 rfl rfl rfl rfl rfl
  exact ⟨h.1, h.2.1, h.2.2.1⟩

/-! ## C7: missing access token -/

/-- C7: when the joined user carries no access token the dispatcher marks the
queue row terminally `failed` with error message `No valid access token`,
leaving `retry_count` and `scheduled_for` untouched (so the outcome is the
same for every retry count, and no retry is scheduled), and the Publisher
Client is never consulted: the whole step is the same function of the state
for any two publishers. -/
theorem no_token_terminal (pub pub2 : Publisher) (now : Nat) (db : DB)
    (item : FetchedItem) (e : QueueEntry)
    (htok : item.users.bind (fun u => u.threads_access_token) = none)
    (hq : db.findQueue item.entry.id = some e) :
    (processItem pub now db item).1.findQueue item.entry.id = some
      { e with status := QueueStatus.failed,
               error_message := some "No valid access token", updated_at := now } ∧
    (processItem pub now db item).2 =
      { queue_id := item.entry.id, post_id := item.entry.post_id,
        threads_post_id := none, status := ResStatus.failed,
        error := some "No valid access token", retry_count := none } ∧
    processItem pub2 now db item = processItem pub now db item := by
  have hpi : processItem pub now db item =
      ((markProcessing now item.entry.id db).updateQueue item.entry.id
        (fun x => { x with status := QueueStatus.failed,
                           error_message := some "No valid access token",
                           updated_at := now }),
       { queue_id := item.entry.id, post_id := item.entry.post_id,
         threads_post_id := none, status := ResStatus.failed,
         error := some "No valid access token", retry_count := none }) := by
    simp only [processItem, htok]
  have hpi2 : processItem pub2 now db item =
      ((markProcessing now item.entry.id db).updateQueue item.entry.id
        (fun x => { x with status := QueueStatus.failed,
                           error_message := some "No valid access token",
                           updated_at := now }),
       { queue_id := item.entry.id, post_id := item.entry.post_id,
         threads_post_id := none, status := ResStatus.failed,
         error := some "No valid access token", retry_count := none }) := by
    simp only [processItem, htok]
  refine ⟨?_, ?_, hpi2.trans hpi.symm⟩
  · rw [hpi]
    rw [findQueue_updateQueue _ item.entry.id
        (fun x => { x with status := QueueStatus.failed,
                           error_message := some "No valid access token",
                           updated_at := now })
        (fun x => rfl), findQueue_markProcessing now item.entry.id db e hq]
    rfl
  · rw [hpi]

def exUserNoTok : UserRow := { id := 2, threads_access_token := none }

def exEntryC7 : QueueEntry :=
  { id := 6, post_id := 7, user_id := 2, status := QueueStatus.pending,
    scheduled_for := 20, retry_count := some 2, error_message := none,
    completed_at := none, updated_at := 0 }

def exPostC7 : Post :=
  { id := 7, user_id := 2, status := PostStatus.scheduled, content := "Hi",
    media_type := "text", media_urls := [], is_carousel := false,
    carousel_items := [], link_attachment_url := none, threads_post_id := none,
    published_at := none, error_message := none, updated_at := 0 }

def exDBC7 : DB :=
  { queue := [exEntryC7], posts := [exPostC7], users := [exUserNoTok],
    analytics := [] }

def exItemC7 : FetchedItem :=
  { entry := exEntryC7, posts := some exPostC7, users := some exUserNoTok }

/-- Witness for C7: on a concrete entry owned by a token-less user the step
terminally fails the row with the fixed message, and an always-succeeding and
an always-failing publisher produce the identical outcome. -/
theorem no_token_terminal_witness :
    ((processItem pubOk 777 exDBC7 exItemC7).1.findQueue exItemC7.entry.id).map
        QueueEntry.status = some QueueStatus.failed ∧
    (processItem pubOk 777 exDBC7 exItemC7).2.error = some "No valid access token" ∧
    processItem pubFail 777 exDBC7 exItemC7 = processItem pubOk 777 exDBC7 exItemC7 := by
  have h := no_token_terminal pubOk pubFail 777 exDBC7 exItemC7 exEntryC7 rfl rfl
  refine ⟨?_, ?_, h.2.2⟩
  · rw [h.1]
    rfl
  · rw [h.2.1]

/-! ## C10: the no-token path only touches the queue row -/

/-- C10: in the no-token path only the queue table changes and only the
matching row within it — the posts, users and analytics tables are returned
untouched (so the associated Post keeps its status and its error message),
and a retryable publish failure also leaves the posts table untouched: the
Post is set to `failed` only in the retry-exhaustion path. -/
theorem no_token_frame (pub : Publisher) (now : Nat) (db : DB)
    (item : FetchedItem) :
    (item.users.bind (fun u => u.threads_access_token) = none →
      (processItem pub now db item).1.posts = db.posts ∧
      (processItem pub now db item).1.analytics = db.analytics ∧
      (processItem pub now db item).1.users = db.users ∧
      ∀ e ∈ db.queue, e.id ≠ item.entry.id →
        e ∈ (processItem pub now db item).1.queue) ∧
    (∀ t post msg, item.users.bind (fun u => u.threads_access_token) = some t →
      item.posts = some post → publishPost pub (some post) = Except.error msg →
      item.entry.retry_count.getD 0 + 1 < 3 →
      (processItem pub now db item).1.posts = db.posts) := by
  constructor
  · intro htok
    have hpi : processItem pub now db item =
        ((markProcessing now item.entry.id db).updateQueue item.entry.id
          (fun x => { x with status := QueueStatus.failed,
                             error_message := some "No valid access token",
                             updated_at := now }),
         { queue_id := item.entry.id, post_id := item.entry.post_id,
           threads_post_id := none, status := ResStatus.failed,
           error := some "No valid access token", retry_count := none }) := by
      simp only [processItem, htok]
    rw [hpi]
    refine ⟨rfl, rfl, rfl, ?_⟩
    intro e he hne
    exact mem_updateQueue_of_ne _ item.entry.id _ e
      (mem_updateQueue_of_ne db item.entry.id _ e he hne) hne
  · intro t post msg htok hpost hfail h3
    have hpi : processItem pub now db item
        = onFailure now item msg (markProcessing now item.entry.id db) := by
      simp only [processItem, htok, hpost, hfail]
    rw [hpi]
    unfold onFailure
    simp only [h3, if_true]
    rfl

/-- Witness for C10: on the token-less fixture the posts table is unchanged,
and on the retryable-failure fixture it is unchanged as well. -/
theorem no_token_frame_witness :
    (processItem pubOk 777 exDBC7 exItemC7).1.posts = exDBC7.posts ∧
    (processItem pubFail 100 exDB1 exItem1).1.posts = exDB1.posts := by
  have h1 := (no_token_frame pubOk 777 exDBC7 exItemC7).1 rfl
  have h2 := (no_token_frame pubFail 100 exDB1 exItem1).2 "tok" exPost1
    "network down" rfl rfl rfl (by decide)
  exact ⟨h1.1, h2⟩

/-! ## C8: validation and structural failures -/

theorem onFailure_row_effects (now : Nat) (item : FetchedItem) (msg : String)
    (db : DB) (e : QueueEntry)
    (hq : db.findQueue item.entry.id = some e) :
    (onFailure now item msg (markProcessing now item.entry.id db)).2.error
        = some msg ∧
    (onFailure now item msg (markProcessing now item.entry.id db)).2.retry_count
        = some (item.entry.retry_count.getD 0 + 1) ∧
    (item.entry.retry_count.getD 0 + 1 < 3 →
      ((onFailure now item msg (markProcessing now item.entry.id db)).1.findQueue
          item.entry.id).map QueueEntry.status = some QueueStatus.pending) ∧
    (3 ≤ item.entry.retry_count.getD 0 + 1 →
      ((onFailure now item msg (markProcessing now item.entry.id db)).1.findQueue
          item.entry.id).map QueueEntry.status = some QueueStatus.failed) := by
  have hq1 := findQueue_markProcessing now item.entry.id db e hq
  unfold onFailure failStep
  by_cases h3 : item.entry.retry_count.getD 0 + 1 < 3
  · refine ⟨rfl, rfl, fun _ => ?_, fun hge => absurd h3 (by omega)⟩
    simp only [h3, if_true]
    rw [findQueue_updateQueue (markProcessing now item.entry.id db) item.entry.id
        (fun x => { x with status := QueueStatus.pending,
                           scheduled_for := now + 30 * 60 * 1000,
                           retry_count := some (item.entry.retry_count.getD 0 + 1),
                           error_message := some msg, updated_at := now })
        (fun x => rfl), hq1]
    rfl
  · refine ⟨rfl, rfl, fun hlt => absurd hlt h3, fun _ => ?_⟩
    simp only [h3, if_false]
    rw [findQueue_updatePost, findQueue_updateQueue (markProcessing now item.entry.id db)
        item.entry.id
        (fun x => { x with status := QueueStatus.failed,
                           scheduled_for := item.entry.scheduled_for,
                           retry_count := some (item.entry.retry_count.getD 0 + 1),
                           error_message := some msg, updated_at := now })
        (fun x => rfl), hq1]
    rfl

/-- C8 amended: a validation/structural failure (unsupported media kind, or
post missing at processing time) is not classified: it flows through the
generic catch block like any other error, so the entry is re-enqueued as
`pending` for retry while the incremented retry count is below 3, and becomes
terminal `failed` only when the count reaches 3. -/
theorem validation_failures_follow_retry_path (pub : Publisher) (now : Nat)
    (db : DB) (item : FetchedItem) (t : String) (e : QueueEntry)
    (htok : item.users.bind (fun u => u.threads_access_token) = some t)
    (hq : db.findQueue item.entry.id = some e)
    (hval : item.posts = none ∨ ∃ post, item.posts = some post ∧
        (post.media_type == "text" || post.media_urls.isEmpty) = false ∧
        (post.is_carousel && !post.carousel_items.isEmpty) = false ∧
        (post.media_type == "image") = false ∧
        (post.media_type == "video") = false) :
    ∃ msg, (msg = "Cannot read properties of null"
        ∨ msg = "Unsupported media type") ∧
      (processItem pub now db item).2.error = some msg ∧
      (processItem pub now db item).2.retry_count
          = some (item.entry.retry_count.getD 0 + 1) ∧
      (item.entry.retry_count.getD 0 + 1 < 3 →
        ((processItem pub now db item).1.findQueue item.entry.id).map
            QueueEntry.status = some QueueStatus.pending) ∧
      (3 ≤ item.entry.retry_count.getD 0 + 1 →
        ((processItem pub now db item).1.findQueue item.entry.id).map
            QueueEntry.status = some QueueStatus.failed) := by
  rcases hval with hnone | ⟨post, hpost, hc1, hc2, hc3, hc4⟩
  · refine ⟨"Cannot read properties of null", Or.inl rfl, ?_⟩
    have hpi : processItem pub now db item
        = onFailure now item "Cannot read properties of null"
            (markProcessing now item.entry.id db) := by
      simp only [processItem, htok, hnone]
    rw [hpi]
    exact onFailure_row_effects now item _ db e hq
  · refine ⟨"Unsupported media type", Or.inr rfl, ?_⟩
    have hfail : publishPost pub (some post) = Except.error "Unsupported media type" := by
      simp only [publishPost, hc1, hc2, hc3, hc4, Bool.false_eq_true, if_false]
    have hpi : processItem pub now db item
        = onFailure now item "Unsupported media type"
            (markProcessing now item.entry.id db) := by
      simp only [processItem, htok, hpost, hfail]
    rw [hpi]
    exact onFailure_row_effects now item _ db e hq

def exPostC8 : Post :=
  { id := 8, user_id := 1, status := PostStatus.scheduled, content := "Sound",
    media_type := "audio", media_urls := ["u1"], is_carousel := false,
    carousel_items := [], link_attachment_url := none, threads_post_id := none,
    published_at := none, error_message := none, updated_at := 0 }

def exEntryC8 : QueueEntry :=
  { id := 4, post_id := 8, user_id := 1, status := QueueStatus.pending,
    scheduled_for := 30, retry_count := some 0, error_message := none,
    completed_at := none, updated_at := 0 }

def exDBC8 : DB :=
  { queue := [exEntryC8], posts := [exPostC8], users := [exUser1],
    analytics := [] }

def exItemC8 : FetchedItem :=
  { entry := exEntryC8, posts := some exPostC8, users := some exUser1 }

/-- C8 counterexample: the claim states a validation failure (here an
unsupported media kind) is terminal and never re-enqueued.  On the code the
`Unsupported media type` error is caught by the generic catch block: with
`retry_count = 0` the entry is set back to `pending` with the 30-minute
backoff — it is re-enqueued for retry. -/
theorem unsupported_media_is_retried :
    (processItem pubOk 100 exDBC8 exItemC8).2.error
        = some "Unsupported media type" ∧
    ((processItem pubOk 100 exDBC8 exItemC8).1.findQueue exItemC8.entry.id).map
        QueueEntry.status = some QueueStatus.pending ∧
    ((processItem pubOk 100 exDBC8 exItemC8).1.findQueue exItemC8.entry.id).map
        QueueEntry.scheduled_for = some (100 + 30 * 60 * 1000) := by
  refine ⟨rfl, rfl, rfl⟩

/-- Witness for C8 (amended): the unsupported-kind fixture is re-enqueued as
pending with its retry count incremented to 1. -/
theorem validation_failures_witness :
    ((processItem pubOk 100 exDBC8 exItemC8).1.findQueue exItemC8.entry.id).map
        QueueEntry.status = some QueueStatus.pending ∧
    (processItem pubOk 100 exDBC8 exItemC8).2.retry_count = some 1 := by
  obtain ⟨msg, hkind, herr, hrc, hpend, hterm⟩ :=
    validation_failures_follow_retry_path pubOk 100 exDBC8 exItemC8 "tok"
      exEntryC8 rfl rfl (Or.inr ⟨exPostC8, rfl, rfl, rfl, rfl, rfl⟩)
  exact ⟨hpend (by decide), hrc⟩

/-! ## C9: per-entry isolation in the batch loop -/

theorem processItem_queue_id (pub : Publisher) (now : Nat) (db : DB)
    (item : FetchedItem) :
    (processItem pub now db item).2.queue_id = item.entry.id := by
  unfold processItem
  split
  · rfl
  · split
    · rfl
    · split
      · rfl
      · rfl

/-- C9: the batch loop yields exactly one result row per fetched item, in
order (so an exception in one item never prevents the later items from being
attempted), and a Publisher Client error is recorded in that item's result
row rather than propagated. -/
theorem batch_isolation (pub : Publisher) (now : Nat) (db : DB)
    (items : List FetchedItem) :
    (processDue pub now db items).2.map ResultRow.queue_id
        = items.map (fun it => it.entry.id) ∧
    (processDue pub now db items).2.length = items.length ∧
    (∀ db2 item t msg,
      item.users.bind (fun u => u.threads_access_token) = some t →
      publishPost pub item.posts = Except.error msg →
      (processItem pub now db2 item).2.error = some msg) := by
  refine ⟨?_, ?_, ?_⟩
  · induction items generalizing db with
    | nil => rfl
    | cons it rest ih =>
      show (processItem pub now db it).2.queue_id ::
          (processDue pub now (processItem pub now db it).1 rest).2.map
            ResultRow.queue_id = _
      rw [processItem_queue_id, ih]
      rfl
  · induction items generalizing db with
    | nil => rfl
    | cons it rest ih =>
      show ((processDue pub now (processItem pub now db it).1 rest).2.length) + 1 = _
      rw [ih]
      rfl
  · intro db2 item t msg htok hfail
    cases hpost : item.posts with
    | none =>
      rw [hpost] at hfail
      have hmsg : msg = "Cannot read properties of null" :=
        (Except.error.injEq _ _).mp hfail.symm
      have hpi : processItem pub now db2 item
          = onFailure now item "Cannot read properties of null"
              (markProcessing now item.entry.id db2) := by
        simp only [processItem, htok, hpost]
      rw [hpi, hmsg]
      rfl
    | some post =>
      rw [hpost] at hfail
      have hpi : processItem pub now db2 item
          = onFailure now item msg (markProcessing now item.entry.id db2) := by
        simp only [processItem, htok, hpost, hfail]
      rw [hpi]
      rfl

/-- Witness for C9: a one-item batch with a failing publisher yields exactly
that item's result row, and the publisher error is recorded in it. -/
theorem batch_isolation_witness :
    (processDue pubFail 100 exDB1 [exItem1]).2.map ResultRow.queue_id
        = [exItem1.entry.id] ∧
    (processItem pubFail 100 exDB1 exItem1).2.error = some "network down" := by
  have h := batch_isolation pubFail 100 exDB1 [exItem1]
  exact ⟨h.1, h.2.2 exDB1 exItem1 "tok" "network down" rfl rfl⟩

/-- A database with 15 due pending queue rows (ids and due times 0 to 14). -/
def exDBC6 : DB :=
  { queue := (List.range 15).map (fun i =>
      { id := i, post_id := i, user_id := 1, status := QueueStatus.pending,
        scheduled_for := i, retry_count := none, error_message := none,
        completed_at := none, updated_at := 0 }),
    posts := [], users := [], analytics := [] }

/-- The earliest-due item of `exDBC6` as the fetch joins it. -/
def itW : FetchedItem :=
  { entry := { id := 0, post_id := 0, user_id := 1, status := QueueStatus.pending,
               scheduled_for := 0, retry_count := none, error_message := none,
               completed_at := none, updated_at := 0 },
    posts := none, users := none }

/-- Witness for C6: with 15 due entries exactly 10 are fetched, and a fetched
member is pending and due. -/
theorem fetchDue_only_due_witness :
    (fetchDue 100 exDBC6).length = 10 ∧
    itW.entry.status = QueueStatus.pending ∧ itW.entry.scheduled_for ≤ 100 := by
  have h := fetchDue_only_due_sorted_bounded 100 exDBC6
  have hm : itW ∈ fetchDue 100 exDBC6 := by decide
  refine ⟨?_, (h.1 itW hm).1, (h.1 itW hm).2⟩
  rw [h.2.1]
  decide

/-! ## C2: create-then-publish -/

theorem twoStep_ok_iff (a : Except String ThreadsMediaResponse)
    (g : String → Except String ThreadsMediaResponse) (v : String) :
    ((do
        let container ← a
        let res ← g container.id
        pure res.id : Except String String) = Except.ok v)
      ↔ ∃ container res, a = Except.ok container ∧ g container.id = Except.ok res
          ∧ res.id = v := by
  cases a with
  | error e => simp [Bind.bind, Except.bind]
  | ok c =>
    cases hg : g c.id with
    | error e2 => simp [Bind.bind, Except.bind, hg, pure, Except.pure]
    | ok r => simp [Bind.bind, Except.bind, hg, pure, Except.pure]

theorem twoStep_error_create (a : Except String ThreadsMediaResponse)
    (g : String → Except String ThreadsMediaResponse) (e : String)
    (ha : a = Except.error e) :
    (do
        let container ← a
        let res ← g container.id
        pure res.id : Except String String) = Except.error e := by
  rw [ha]
  rfl

theorem twoStep_error_publish (a : Except String ThreadsMediaResponse)
    (g : String → Except String ThreadsMediaResponse)
    (container : ThreadsMediaResponse) (e2 : String)
    (ha : a = Except.ok container) (hg : g container.id = Except.error e2) :
    (do
        let container ← a
        let res ← g container.id
        pure res.id : Except String String) = Except.error e2 := by
  rw [ha]
  show (do
      let res ← g container.id
      pure res.id : Except String String) = Except.error e2
  rw [hg]
  rfl

/-- C2: for each media kind the dispatcher's Publisher Client call is the
two-step create-then-publish protocol: the branch taken by `publishPost`
equals the corresponding modelled convenience method, each convenience method
returns an external post id exactly when the container-creation call and the
publish call both succeed (the returned id being the publish response id),
and when either step fails the attempt fails with that step's error. -/
theorem create_then_publish_two_steps (net : ThreadsNet) :
    (∀ post : Post, (post.media_type == "text" || post.media_urls.isEmpty) = true →
      publishPost (netPublisher net) (some post)
        = createTextPost net post.content post.link_attachment_url) ∧
    (∀ post : Post, (post.media_type == "text" || post.media_urls.isEmpty) = false →
      (post.is_carousel && !post.carousel_items.isEmpty) = true →
      publishPost (netPublisher net) (some post)
        = createCarouselPost net post.content post.carousel_items) ∧
    (∀ post : Post, (post.media_type == "text" || post.media_urls.isEmpty) = false →
      (post.is_carousel && !post.carousel_items.isEmpty) = false →
      (post.media_type == "image") = true →
      publishPost (netPublisher net) (some post)
        = createImagePost net post.content (post.media_urls.headD "")) ∧
    (∀ post : Post, (post.media_type == "text" || post.media_urls.isEmpty) = false →
      (post.is_carousel && !post.carousel_items.isEmpty) = false →
      (post.media_type == "image") = false →
      (post.media_type == "video") = true →
      publishPost (netPublisher net) (some post)
        = createVideoPost net post.content (post.media_urls.headD "")) ∧
    (∀ content link extId, createTextPost net content link = Except.ok extId ↔
      ∃ container res,
        createTextMedia net content link none none = Except.ok container ∧
        publishMedia net container.id = Except.ok res ∧ res.id = extId) ∧
    (∀ content url extId, createImagePost net content url = Except.ok extId ↔
      ∃ container res,
        createImageMedia net url (some content) none false none none
          = Except.ok container ∧
        publishMedia net container.id = Except.ok res ∧ res.id = extId) ∧
    (∀ content url extId, createVideoPost net content url = Except.ok extId ↔
      ∃ container res,
        createVideoMedia net url (some content) none none = Except.ok container ∧
        publishMedia net container.id = Except.ok res ∧ res.id = extId) ∧
    (∀ content items extId, createCarouselPost net content items = Except.ok extId ↔
      ∃ container res,
        createCarouselMedia net items (some content) none none none
          = Except.ok container ∧
        publishMedia net container.id = Except.ok res ∧ res.id = extId) ∧
    (∀ content link e,
      createTextMedia net content link none none = Except.error e →
      createTextPost net content link = Except.error e) ∧
    (∀ content link container e2,
      createTextMedia net content link none none = Except.ok container →
      publishMedia net container.id = Except.error e2 →
      createTextPost net content link = Except.error e2) := by
  refine ⟨?_, ?_, ?_, ?_, ?_, ?_, ?_, ?_, ?_, ?_⟩
  · intro post h
    simp only [publishPost]
    rw [if_pos h]
    rfl
  · intro post h1 h2
    simp only [publishPost]
    rw [if_neg (by rw [h1]; exact Bool.false_ne_true), if_pos h2]
    rfl
  · intro post h1 h2 h3
    simp only [publishPost]
    rw [if_neg (by rw [h1]; exact Bool.false_ne_true),
        if_neg (by rw [h2]; exact Bool.false_ne_true), if_pos h3]
    rfl
  · intro post h1 h2 h3 h4
    simp only [publishPost]
    rw [if_neg (by rw [h1]; exact Bool.false_ne_true),
        if_neg (by rw [h2]; exact Bool.false_ne_true),
        if_neg (by rw [h3]; exact Bool.false_ne_true), if_pos h4]
    rfl
  · intro content link extId
    exact twoStep_ok_iff (createTextMedia net content link none none)
      (fun cid => publishMedia net cid) extId
  · intro content url extId
    exact twoStep_ok_iff (createImageMedia net url (some content) none false none none)
      (fun cid => publishMedia net cid) extId
  · intro content url extId
    exact twoStep_ok_iff (createVideoMedia net url (some content) none none)
      (fun cid => publishMedia net cid) extId
  · intro content items extId
    exact twoStep_ok_iff (createCarouselMedia net items (some content) none none none)
      (fun cid => publishMedia net cid) extId
  · intro content link e h
    exact twoStep_error_create (createTextMedia net content link none none)
      (fun cid => publishMedia net cid) e h
  · intro content link container e2 h hg
    exact twoStep_error_publish (createTextMedia net content link none none)
      (fun cid => publishMedia net cid) container e2 h hg

/-- A Threads network oracle on which every call succeeds, tagging the ids it
returns so that the create and publish steps are distinguishable. -/
def netOk : ThreadsNet :=
  { getMe := Except.ok "me1",
    createMedia := fun _ p => Except.ok { id := String.append "c-" p.media_type },
    publishMedia := fun _ cid => Except.ok { id := String.append "pub-" cid } }

/-- Witness for C2: on the concrete oracle the dispatcher's text branch equals
the modelled convenience method, and the returned external id is the publish
response for the created TEXT container. -/
theorem create_then_publish_two_steps_witness :
    publishPost (netPublisher netOk) (some exPost1)
      = createTextPost netOk exPost1.content exPost1.link_attachment_url ∧
    createTextPost netOk "Hello" none = Except.ok "pub-c-TEXT" := by
  have h := create_then_publish_two_steps netOk
  refine ⟨h.1 exPost1 (by decide), ?_⟩
  exact (h.2.2.2.2.1 "Hello" none "pub-c-TEXT").mpr
    ⟨{ id := "c-TEXT" }, { id := "pub-c-TEXT" }, rfl, rfl, rfl⟩

end ThreadsScheduler
